import Mathlib

/-!
Verification development for the passportlink repository.

The definitions below are a shallow embedding of the identity-resolution
code of the repository:

* the data model embeds the mongoose `User` / provider sub-document schema
  (`src/strategies/index.js`, third document: `providerSchema`, `userSchema`);
* `findOrCreateUser` embeds the per-provider anonymous-mode resolvers of the
  custom auth framework: google (`src/strategies/index.js`, second document),
  github (`unnamed/part_005`), facebook (`src/lib/auth/providers/facebook.js`)
  and linkedin (`unnamed/part_001`), which share one control-flow skeleton and
  differ only in the points captured by `ProviderCfg`;
* `authorizeStepConflictFirst` / `authorizeStepOwnFirst` embed the
  authenticated-mode (account-linking) `authorize` functions;
* `unlinkProvider` embeds the unlink route of `src/routes/auth.js`;
* the `...NormalizeProfile` functions embed each custom adapter
  `normalizeProfile`;
* `safeUserView` / `currentUserRoute` embed the `/auth/user` route;
* the `...CallbackEvents` functions embed the order of externally visible
  steps of each provider `authenticate` on the callback leg (code present).

Persistent-store documents are a `List User`; `find?` models mongoose
`findOne` (first match), `saveUser` models `save` (replace by id), and
appending models inserting a freshly constructed document.
-/

namespace PassportLink

/-- one element of the `providers` array of a user document
(`providerSchema` in `src/strategies/index.js`). -/
structure LinkedIdentity where
  provider : String
  providerId : String
  displayName : String
  email : Option String
  profilePhoto : Option String
  accessToken : String
  refreshToken : Option String
  linkedAt : Nat
deriving Repr, DecidableEq

/-- a user document (`userSchema` in `src/strategies/index.js`). -/
structure User where
  id : Nat
  name : String
  email : Option String
  emailVerified : Bool
  providers : List LinkedIdentity
  createdAt : Nat
  updatedAt : Nat
deriving Repr, DecidableEq

/-- the canonical record produced by each adapter `normalizeProfile`. -/
structure NormalizedProfile where
  providerId : String
  provider : String
  displayName : String
  email : Option String
  emailVerified : Bool
  profilePhoto : Option String
  accessToken : String
  refreshToken : Option String
deriving Repr, DecidableEq

/-- the predicate `p.provider === tag && p.providerId === pid` used by every
`findIndex` / `find` over a providers array in the resolvers. -/
def matchesPair (tag pid : String) (p : LinkedIdentity) : Bool :=
  p.provider == tag && p.providerId == pid

/-- whether a user document owns the external identity (tag, pid). -/
def ownsPair (tag pid : String) (u : User) : Bool :=
  u.providers.any (matchesPair tag pid)

/-- `User.findOne({"providers.provider": tag, "providers.providerId": pid})`. -/
def findByPair (store : List User) (tag pid : String) : Option User :=
  store.find? (ownsPair tag pid)

/-- `User.findOne({ email })`. -/
def findByEmail (store : List User) (e : String) : Option User :=
  store.find? (fun u => u.email == some e)

/-- `User.findById(userId)`. -/
def findById (store : List User) (i : Nat) : Option User :=
  store.find? (fun u => u.id == i)

/-- `user.save()` on an already persisted document: replace by id. -/
def saveUser (store : List User) (u : User) : List User :=
  store.map (fun v => if v.id == u.id then u else v)

/-- the per-provider variation points of the four custom-framework resolvers. -/
structure ProviderCfg where
  tag : String
  /-- whether the email-merge guard is `email && emailVerified`
  (google/github/linkedin) or just `email` (facebook). -/
  requireVerifiedEmail : Bool
  /-- whether the created user gets the `user-<id>@<tag>.account` fallback
  email (facebook/linkedin) or the raw profile email (google/github). -/
  placeholderEmail : Bool
  /-- whether the token-refresh update writes `refreshToken`
  (google/linkedin) or leaves it (github/facebook). -/
  updatesRefreshToken : Bool
  /-- whether a pushed identity carries `refreshToken`
  (google/linkedin) or omits it (github/facebook). -/
  pushesRefreshToken : Bool
deriving Repr, DecidableEq

/-- embeds the google resolver of `src/strategies/index.js` (second doc). -/
def googleCfg : ProviderCfg :=
  { tag := "google", requireVerifiedEmail := true, placeholderEmail := false
    updatesRefreshToken := true, pushesRefreshToken := true }

/-- embeds the github resolver of `unnamed/part_005`. -/
def githubCfg : ProviderCfg :=
  { tag := "github", requireVerifiedEmail := true, placeholderEmail := false
    updatesRefreshToken := false, pushesRefreshToken := false }

/-- embeds the facebook resolver of `src/lib/auth/providers/facebook.js`. -/
def facebookCfg : ProviderCfg :=
  { tag := "facebook", requireVerifiedEmail := false, placeholderEmail := true
    updatesRefreshToken := false, pushesRefreshToken := false }

/-- embeds the linkedin resolver of `unnamed/part_001` (third doc). -/
def linkedinCfg : ProviderCfg :=
  { tag := "linkedin", requireVerifiedEmail := true, placeholderEmail := true
    updatesRefreshToken := true, pushesRefreshToken := true }

/-- the in-place token/display refresh performed on the provider entry found
by `findIndex` (`user.providers[providerIndex].accessToken = ...`). -/
def refreshIdentity (cfg : ProviderCfg) (np : NormalizedProfile)
    (p : LinkedIdentity) : LinkedIdentity :=
  { p with
    accessToken := np.accessToken
    refreshToken := if cfg.updatesRefreshToken then np.refreshToken else p.refreshToken
    profilePhoto := np.profilePhoto
    displayName := np.displayName }

/-- refresh the first entry matching the pair, as `findIndex` followed by an
in-place mutation does; other entries are untouched. -/
def refreshFirst (cfg : ProviderCfg) (np : NormalizedProfile) :
    List LinkedIdentity → List LinkedIdentity
  | [] => []
  | p :: ps =>
    if matchesPair cfg.tag np.providerId p then refreshIdentity cfg np p :: ps
    else p :: refreshFirst cfg np ps

/-- the identity object pushed by `user.providers.push({...})`. -/
def pushedIdentity (cfg : ProviderCfg) (np : NormalizedProfile) (now : Nat) :
    LinkedIdentity :=
  { provider := cfg.tag
    providerId := np.providerId
    displayName := np.displayName
    email := np.email
    profilePhoto := np.profilePhoto
    accessToken := np.accessToken
    refreshToken := if cfg.pushesRefreshToken then np.refreshToken else none
    linkedAt := now }

/-- the synthesized fallback email `user-<externalId>@<provider>.account`. -/
def placeholderFor (cfg : ProviderCfg) (np : NormalizedProfile) : String :=
  "user-" ++ np.providerId ++ "@" ++ cfg.tag ++ ".account"

/-- the document built by `new User({...})` in the create branch. -/
def createdUser (cfg : ProviderCfg) (np : NormalizedProfile)
    (now newId : Nat) : User :=
  { id := newId
    name := np.displayName
    email :=
      if cfg.placeholderEmail then some (np.email.getD (placeholderFor cfg np))
      else np.email
    emailVerified := np.emailVerified
    providers := [pushedIdentity cfg np now]
    createdAt := now
    updatedAt := now }

/-- which branch of the resolver decision tree fired. -/
inductive Decision
  | login
  | linkByEmail
  | create
deriving Repr, DecidableEq

/-- result of an anonymous-mode resolution: returned user, new store state,
and the branch taken. -/
structure ResolveResult where
  user : User
  store : List User
  decision : Decision
deriving Repr, DecidableEq

/-- the guard in front of the email lookup: `if (normalizedProfile.email &&
normalizedProfile.emailVerified)` for google/github/linkedin, and
`if (normalizedProfile.email)` for facebook. -/
def emailLookup (cfg : ProviderCfg) (store : List User)
    (np : NormalizedProfile) : Option User :=
  match np.email with
  | none => none
  | some e =>
    if !cfg.requireVerifiedEmail || np.emailVerified then findByEmail store e
    else none

/-- embeds the `findOrCreateUser` of the four custom-framework providers
(anonymous / login mode): look up by (provider, providerId) and refresh;
else, guarded by `emailLookup`, attach to the user found by primary email;
else create a new user. `now` models `new Date()` / the `updatedAt` pre-save
hook, `newId` the id the store assigns to the inserted document. The
userSchema save-time validation of the create branch (email is a required
field, so `newUser.save()` rejects a document without one) is modelled
separately in `findOrCreateUserSchemaChecked`; this plain variant describes
the document the resolver builds and the branch it takes. -/
def findOrCreateUser (cfg : ProviderCfg) (store : List User)
    (np : NormalizedProfile) (now newId : Nat) : ResolveResult :=
  match findByPair store cfg.tag np.providerId with
  | some u =>
    if ownsPair cfg.tag np.providerId u then
      let u' : User :=
        { u with providers := refreshFirst cfg np u.providers, updatedAt := now }
      { user := u', store := saveUser store u', decision := Decision.login }
    else
      { user := u, store := store, decision := Decision.login }
  | none =>
    match emailLookup cfg store np with
    | some u =>
      let u' : User :=
        { u with providers := u.providers ++ [pushedIdentity cfg np now]
                 updatedAt := now }
      { user := u', store := saveUser store u', decision := Decision.linkByEmail }
    | none =>
      let nu := createdUser cfg np now newId
      { user := nu, store := store ++ [nu], decision := Decision.create }

/-- outcome of a resolution when persistence may fail: the resolver body is
wrapped in `try { ... } catch (err) { throw errors.createError("Failed to
find or create user", err, 500) }`. -/
inductive ResolveOutcomeE
  | ok (r : ResolveResult)
  | err (status : Nat) (msg : String)
deriving Repr, DecidableEq

/-- embeds `findOrCreateUser` together with its catch-all wrapper.
`createSaveFails` models the persistent store rejecting `newUser.save()` in
the create branch, which is where the loser of the uniqueness race on
(provider, providerId) fails; the source catch block wraps any such failure
into a generic 500 error and performs no retry or second lookup. -/
def findOrCreateUserE (cfg : ProviderCfg) (store : List User)
    (np : NormalizedProfile) (now newId : Nat) (createSaveFails : Bool) :
    ResolveOutcomeE :=
  match findByPair store cfg.tag np.providerId with
  | some u =>
    if ownsPair cfg.tag np.providerId u then
      let u' : User :=
        { u with providers := refreshFirst cfg np u.providers, updatedAt := now }
      ResolveOutcomeE.ok
        { user := u', store := saveUser store u', decision := Decision.login }
    else
      ResolveOutcomeE.ok { user := u, store := store, decision := Decision.login }
  | none =>
    match emailLookup cfg store np with
    | some u =>
      let u' : User :=
        { u with providers := u.providers ++ [pushedIdentity cfg np now]
                 updatedAt := now }
      ResolveOutcomeE.ok
        { user := u', store := saveUser store u', decision := Decision.linkByEmail }
    | none =>
      if createSaveFails then
        ResolveOutcomeE.err 500 ("Failed to find or create user")
      else
        let nu := createdUser cfg np now newId
        ResolveOutcomeE.ok
          { user := nu, store := store ++ [nu], decision := Decision.create }

/-- embeds the resolver together with the userSchema save-time validation
of the create branch: the schema in `src/strategies/index.js` declares
`email` required (and unique), so `newUser.save()` rejects a document whose
email is missing with a validation error, which the resolver's catch block
wraps into the generic 500 error — the program never stores a user without
an email. (The `name` field is also required but is always set, to
`normalizedProfile.displayName`; the refresh and attach-by-email branches
save documents whose email is already present.) -/
def findOrCreateUserSchemaChecked (cfg : ProviderCfg) (store : List User)
    (np : NormalizedProfile) (now newId : Nat) : ResolveOutcomeE :=
  match findByPair store cfg.tag np.providerId with
  | some u =>
    if ownsPair cfg.tag np.providerId u then
      let u' : User :=
        { u with providers := refreshFirst cfg np u.providers, updatedAt := now }
      ResolveOutcomeE.ok
        { user := u', store := saveUser store u', decision := Decision.login }
    else
      ResolveOutcomeE.ok { user := u, store := store, decision := Decision.login }
  | none =>
    match emailLookup cfg store np with
    | some u =>
      let u' : User :=
        { u with providers := u.providers ++ [pushedIdentity cfg np now]
                 updatedAt := now }
      ResolveOutcomeE.ok
        { user := u', store := saveUser store u', decision := Decision.linkByEmail }
    | none =>
      let nu := createdUser cfg np now newId
      if nu.email.isSome then
        ResolveOutcomeE.ok
          { user := nu, store := store ++ [nu], decision := Decision.create }
      else
        ResolveOutcomeE.err 500 ("Failed to find or create user")

/-- how an authenticated-mode (`authorize`) linking attempt ended. -/
inductive AuthzDecision
  | notAuthenticated
  | userNotFound
  | conflict
  | refreshed
  | linked
deriving Repr, DecidableEq

/-- result of an `authorize` attempt: decision, store state afterwards, and
the session user id afterwards (`session.user` modelled by its id). -/
structure AuthzResult where
  decision : AuthzDecision
  store : List User
  session : Option Nat
deriving Repr, DecidableEq

/-- embeds the `authorize` of the google (`src/strategies/index.js`, second
doc), github (`unnamed/part_005`) and linkedin (`unnamed/part_001`) custom
providers, which check the cross-user conflict before the own-provider
check, together with the `isAuthenticated` guard of `lib/auth/index.js`
(`unnamed/part_007`). On success `sessions.updateSession` stores the saved
user back into the session. -/
def authorizeStepConflictFirst (cfg : ProviderCfg) (store : List User)
    (session : Option Nat) (np : NormalizedProfile) (now : Nat) : AuthzResult :=
  match session with
  | none =>
    { decision := AuthzDecision.notAuthenticated, store := store, session := none }
  | some sid =>
    match findById store sid with
    | none =>
      { decision := AuthzDecision.userNotFound, store := store, session := some sid }
    | some u =>
      let conflict :=
        match findByPair store cfg.tag np.providerId with
        | some w => w.id != u.id
        | none => false
      if conflict then
        { decision := AuthzDecision.conflict, store := store, session := some sid }
      else if ownsPair cfg.tag np.providerId u then
        let u' : User :=
          { u with providers := refreshFirst cfg np u.providers, updatedAt := now }
        { decision := AuthzDecision.refreshed, store := saveUser store u'
          session := some u'.id }
      else
        let u' : User :=
          { u with providers := u.providers ++ [pushedIdentity cfg np now]
                   updatedAt := now }
        { decision := AuthzDecision.linked, store := saveUser store u'
          session := some u'.id }

/-- embeds the `authorize` of the facebook custom provider
(`src/lib/auth/providers/facebook.js`), which checks whether the current
user already holds the pair before looking for a cross-user conflict,
together with the `isAuthenticated` guard of `lib/auth/index.js`. -/
def authorizeStepOwnFirst (cfg : ProviderCfg) (store : List User)
    (session : Option Nat) (np : NormalizedProfile) (now : Nat) : AuthzResult :=
  match session with
  | none =>
    { decision := AuthzDecision.notAuthenticated, store := store, session := none }
  | some sid =>
    match findById store sid with
    | none =>
      { decision := AuthzDecision.userNotFound, store := store, session := some sid }
    | some u =>
      if ownsPair cfg.tag np.providerId u then
        let u' : User :=
          { u with providers := refreshFirst cfg np u.providers, updatedAt := now }
        { decision := AuthzDecision.refreshed, store := saveUser store u'
          session := some u'.id }
      else
        let conflict :=
          match findByPair store cfg.tag np.providerId with
          | some w => w.id != u.id
          | none => false
        if conflict then
          { decision := AuthzDecision.conflict, store := store, session := some sid }
        else
          let u' : User :=
            { u with providers := u.providers ++ [pushedIdentity cfg np now]
                     updatedAt := now }
          { decision := AuthzDecision.linked, store := saveUser store u'
            session := some u'.id }

/-- how a request to `GET /auth/unlink/:provider` ends. -/
inductive UnlinkOutcome
  /-- 401 Not authenticated. -/
  | notAuthenticated
  /-- 404 Provider not found (not in the closed enumeration). -/
  | providerUnknown
  /-- 404 No such account linked to this user (`findIndex` returned -1). -/
  | providerNotLinked
  /-- 400 Cannot unlink the last provider. -/
  | lastProvider
  /-- 200, identity removed and user saved. -/
  | unlinked
deriving Repr, DecidableEq

/-- the closed provider enumeration of `src/routes/auth.js`. -/
def supportedProviders : List String :=
  ["google", "github", "facebook", "microsoft", "linkedin"]

/-- embeds the unlink route of `src/routes/auth.js`: auth check, provider
enumeration check, `findIndex` over the providers array, the
last-provider guard, then `splice(providerIndex, 1)` and save. Returns the
outcome and the user record afterwards. -/
def unlinkProvider (isAuth : Bool) (user : User) (provider : String) :
    UnlinkOutcome × User :=
  if !isAuth then (UnlinkOutcome.notAuthenticated, user)
  else if !(supportedProviders.contains provider) then
    (UnlinkOutcome.providerUnknown, user)
  else
    match user.providers.findIdx? (fun p => p.provider == provider) with
    | none => (UnlinkOutcome.providerNotLinked, user)
    | some i =>
      if user.providers.length ≤ 1 then (UnlinkOutcome.lastProvider, user)
      else
        (UnlinkOutcome.unlinked,
          { user with providers := user.providers.eraseIdx i })

/-- token payload handed to `normalizeProfile` by the token exchange. -/
structure TokenSet where
  access_token : String
  refresh_token : Option String
  expires_in : Option Nat
deriving Repr, DecidableEq

/-- JavaScript `a || b` on a possibly absent string: the empty string is
falsy and also falls through to the fallback. -/
def orElseNonempty (a : Option String) (b : String) : String :=
  match a with
  | some s => if s = "" then b else s
  | none => b

/-- the fields of the google userinfo payload read by the google
`normalizeProfile` of `src/strategies/index.js` (second doc). -/
structure GoogleRawProfile where
  sub : String
  email : Option String
  email_verified : Option Bool
  name : Option String
  given_name : Option String
  family_name : Option String
  picture : Option String
deriving Repr, DecidableEq

/-- embeds the google `normalizeProfile`: `emailVerified:
profile.email_verified || false`. -/
def googleNormalizeProfile (profile : GoogleRawProfile) (tokens : TokenSet) :
    NormalizedProfile :=
  { providerId := profile.sub
    provider := "google"
    displayName :=
      orElseNonempty profile.name
        (let joined :=
          ((profile.given_name.getD "") ++ " " ++ (profile.family_name.getD "")).trim
         if joined = "" then "Google User" else joined)
    email := profile.email
    emailVerified := profile.email_verified.getD false
    profilePhoto := profile.picture
    accessToken := tokens.access_token
    refreshToken := tokens.refresh_token }

/-- the fields of the github `/user` payload read by the github
`normalizeProfile` of `unnamed/part_005`. -/
structure GithubRawProfile where
  id : Nat
  email : Option String
  email_verified : Option Bool
  name : Option String
  login : Option String
  avatar_url : Option String
deriving Repr, DecidableEq

/-- embeds the github `normalizeProfile`: `emailVerified:
profile.email_verified || false`. -/
def githubNormalizeProfile (profile : GithubRawProfile) (tokens : TokenSet) :
    NormalizedProfile :=
  { providerId := toString profile.id
    provider := "github"
    displayName := orElseNonempty profile.name (orElseNonempty profile.login ("GitHub User"))
    email := profile.email
    emailVerified := profile.email_verified.getD false
    profilePhoto := profile.avatar_url
    accessToken := tokens.access_token
    refreshToken := none }

/-- the fields of the linkedin userinfo payload read by the linkedin
`normalizeProfile` of `unnamed/part_001` (third doc). -/
structure LinkedinRawProfile where
  sub : String
  email : Option String
  email_verified : Option Bool
  name : Option String
  given_name : Option String
  family_name : Option String
  picture : Option String
deriving Repr, DecidableEq

/-- embeds the linkedin `normalizeProfile`: `emailVerified =
profile.email_verified || false`. -/
def linkedinNormalizeProfile (profile : LinkedinRawProfile) (tokens : TokenSet) :
    NormalizedProfile :=
  { providerId := profile.sub
    provider := "linkedin"
    displayName :=
      orElseNonempty profile.name
        (let joined :=
          ((profile.given_name.getD "") ++ " " ++ (profile.family_name.getD "")).trim
         if joined = "" then "LinkedIn User" else joined)
    email := profile.email
    emailVerified := profile.email_verified.getD false
    profilePhoto := profile.picture
    accessToken := tokens.access_token
    refreshToken := tokens.refresh_token }

/-- the fields of the facebook Graph payload fetched by the facebook custom
provider (`fields: "id,name,email,picture"` in
`src/lib/auth/providers/facebook.js`); no verification claim is fetched. -/
structure FacebookRawProfile where
  id : String
  email : Option String
  name : Option String
  picture_data_url : Option String
deriving Repr, DecidableEq

/-- embeds the facebook `normalizeProfile`: the source sets `emailVerified:
true` unconditionally (comment in the source: Facebook verifies emails). -/
def facebookNormalizeProfile (profile : FacebookRawProfile) (tokens : TokenSet) :
    NormalizedProfile :=
  { providerId := profile.id
    provider := "facebook"
    displayName := orElseNonempty profile.name ("Facebook User")
    email := profile.email
    emailVerified := true
    profilePhoto := profile.picture_data_url
    accessToken := tokens.access_token
    refreshToken := none }

/-- observable steps of a provider `authenticate` call on the callback leg
(a request carrying `code`). -/
inductive FlowEvent
  | tokenExchange
  | profileFetch
  | resolverInvoked
  | csrfReject
deriving Repr, DecidableEq

/-- embeds the callback leg of the facebook custom `authenticate`
(`src/lib/auth/providers/facebook.js`): the returned `state` is compared to
`req.session.oauthState` with `!==` and a mismatch throws before the token
exchange. -/
def facebookCallbackEvents (state storedState : Option String) : List FlowEvent :=
  if state != storedState then [FlowEvent.csrfReject]
  else [FlowEvent.tokenExchange, FlowEvent.profileFetch, FlowEvent.resolverInvoked]

/-- embeds the callback leg of the google custom `authenticate`
(`src/strategies/index.js`, second doc): no state comparison of any kind is
performed before the token exchange, profile fetch and resolver call. -/
def googleCallbackEvents (_state _storedState : Option String) : List FlowEvent :=
  [FlowEvent.tokenExchange, FlowEvent.profileFetch, FlowEvent.resolverInvoked]

/-- embeds the callback leg of the github custom `authenticate`
(`unnamed/part_005`): no state comparison is performed. -/
def githubCallbackEvents (_state _storedState : Option String) : List FlowEvent :=
  [FlowEvent.tokenExchange, FlowEvent.profileFetch, FlowEvent.resolverInvoked]

/-- embeds the callback leg of the linkedin custom `authenticate`
(`unnamed/part_001`, third doc): no state comparison is performed. -/
def linkedinCallbackEvents (_state _storedState : Option String) : List FlowEvent :=
  [FlowEvent.tokenExchange, FlowEvent.profileFetch, FlowEvent.resolverInvoked]

/-- the provider sub-object of the `/auth/user` response
(`src/routes/auth.js`): provider, displayName, email, profilePhoto,
linkedAt; no providerId and no token material. -/
structure SafeProviderView where
  provider : String
  displayName : String
  email : Option String
  profilePhoto : Option String
  linkedAt : Nat
deriving Repr, DecidableEq

/-- the `safeUser` object of the `/auth/user` route. -/
structure SafeUser where
  id : Nat
  name : String
  email : Option String
  emailVerified : Bool
  providers : List SafeProviderView
  createdAt : Nat
  updatedAt : Nat
deriving Repr, DecidableEq

/-- the mapping applied to each element of `req.user.providers`. -/
def safeProviderView (p : LinkedIdentity) : SafeProviderView :=
  { provider := p.provider
    displayName := p.displayName
    email := p.email
    profilePhoto := p.profilePhoto
    linkedAt := p.linkedAt }

/-- embeds the `safeUser` construction of the `/auth/user` route. -/
def safeUserView (u : User) : SafeUser :=
  { id := u.id
    name := u.name
    email := u.email
    emailVerified := u.emailVerified
    providers := u.providers.map safeProviderView
    createdAt := u.createdAt
    updatedAt := u.updatedAt }

/-- embeds `GET /auth/user`: 401 when no authenticated user is in the
session, otherwise the safe view of the session user. -/
def currentUserRoute (session : Option User) : Except Nat SafeUser :=
  match session with
  | none => Except.error 401
  | some u => Except.ok (safeUserView u)

/-- equality of every field of the `/auth/user` response inputs except the
token material: same provider tag, displayName, email, profilePhoto,
linkedAt (and providerId unconstrained as well, since the response omits
it). -/
def sameNonSecret (p q : LinkedIdentity) : Prop :=
  p.provider = q.provider ∧ p.displayName = q.displayName ∧
  p.email = q.email ∧ p.profilePhoto = q.profilePhoto ∧ p.linkedAt = q.linkedAt

/-- two user records that agree on all non-secret fields; in particular two
records differing only in stored accessToken/refreshToken values. -/
def tokensOnlyDiff (u v : User) : Prop :=
  u.id = v.id ∧ u.name = v.name ∧ u.email = v.email ∧
  u.emailVerified = v.emailVerified ∧ u.createdAt = v.createdAt ∧
  u.updatedAt = v.updatedAt ∧
  List.Forall₂ sameNonSecret u.providers v.providers

/-! Helper lemmas about the store and resolver operations. -/

theorem matchesPair_refreshIdentity (cfg : ProviderCfg) (np : NormalizedProfile)
    (t pid : String) (p : LinkedIdentity) :
    matchesPair t pid (refreshIdentity cfg np p) = matchesPair t pid p := rfl

theorem any_refreshFirst (cfg : ProviderCfg) (np : NormalizedProfile)
    (t pid : String) (l : List LinkedIdentity) :
    (refreshFirst cfg np l).any (matchesPair t pid) = l.any (matchesPair t pid) := by
  induction l with
  | nil => rfl
  | cons p ps ih =>
    cases h : matchesPair cfg.tag np.providerId p with
    | false => simp [refreshFirst, h, List.any_cons, ih]
    | true => simp [refreshFirst, h, List.any_cons, matchesPair_refreshIdentity]

theorem length_refreshFirst (cfg : ProviderCfg) (np : NormalizedProfile)
    (l : List LinkedIdentity) : (refreshFirst cfg np l).length = l.length := by
  induction l with
  | nil => rfl
  | cons p ps ih =>
    cases h : matchesPair cfg.tag np.providerId p with
    | false => simp [refreshFirst, h, ih]
    | true => simp [refreshFirst, h]

theorem matchesPair_pushedIdentity (cfg : ProviderCfg) (np : NormalizedProfile)
    (now : Nat) :
    matchesPair cfg.tag np.providerId (pushedIdentity cfg np now) = true := by
  simp [matchesPair, pushedIdentity]

theorem saveUser_cons (v : User) (vs : List User) (u1 : User) :
    saveUser (v :: vs) u1 = (if v.id == u1.id then u1 else v) :: saveUser vs u1 :=
  rfl

theorem find?_saveUser_of_some {P : User → Bool} {store : List User} {u0 : User}
    (u1 : User) (hfind : store.find? P = some u0) (hid : u1.id = u0.id)
    (hP : P u1 = true) : (saveUser store u1).find? P = some u1 := by
  induction store with
  | nil => simp [List.find?] at hfind
  | cons v vs ih =>
    cases hv : P v with
    | false =>
      simp only [List.find?_cons, hv] at hfind
      cases hw : v.id == u1.id with
      | false =>
        rw [saveUser_cons, if_neg (by simp [hw])]
        simp only [List.find?_cons, hv]
        exact ih hfind
      | true =>
        rw [saveUser_cons, if_pos (by simp [hw])]
        simp only [List.find?_cons, hP]
    | true =>
      simp only [List.find?_cons, hv] at hfind
      have hv0 : v = u0 := by injection hfind
      have hw : (v.id == u1.id) = true := by
        rw [hv0, hid]
        exact beq_self_eq_true u0.id
      rw [saveUser_cons, if_pos (by simp [hw])]
      simp only [List.find?_cons, hP]

theorem find?_saveUser_of_none {P : User → Bool} {store : List User} {u0 : User}
    (u1 : User) (hfind : store.find? P = none) (hmem : u0 ∈ store)
    (hid : u1.id = u0.id) (hP : P u1 = true) :
    (saveUser store u1).find? P = some u1 := by
  induction store with
  | nil => simp at hmem
  | cons v vs ih =>
    cases hv : P v with
    | true =>
      simp only [List.find?_cons, hv] at hfind
      exact Option.noConfusion hfind
    | false =>
      simp only [List.find?_cons, hv] at hfind
      cases hw : v.id == u1.id with
      | true =>
        rw [saveUser_cons, if_pos (by simp [hw])]
        simp only [List.find?_cons, hP]
      | false =>
        have hmem' : u0 ∈ vs := by
          rcases List.mem_cons.mp hmem with hvu | hin
          · exfalso
            have hcontra : (v.id == u1.id) = true := by
              rw [← hvu, hid]
              exact beq_self_eq_true u0.id
            rw [hcontra] at hw
            cases hw
          · exact hin
        rw [saveUser_cons, if_neg (by simp [hw])]
        simp only [List.find?_cons, hv]
        exact ih hfind hmem'

theorem find?_append_singleton {α : Type} {P : α → Bool} {l : List α} (u : α)
    (hfind : l.find? P = none) (hP : P u = true) :
    (l ++ [u]).find? P = some u := by
  induction l with
  | nil => simp [List.find?_cons, hP]
  | cons v vs ih =>
    cases hv : P v with
    | true =>
      simp only [List.find?_cons, hv] at hfind
      exact Option.noConfusion hfind
    | false =>
      simp only [List.find?_cons, hv] at hfind
      rw [List.cons_append]
      simp only [List.find?_cons, hv]
      exact ih hfind

theorem mem_of_emailLookup {cfg : ProviderCfg} {store : List User}
    {np : NormalizedProfile} {u : User}
    (h : emailLookup cfg store np = some u) : u ∈ store := by
  unfold emailLookup at h
  cases he : np.email with
  | none =>
    simp only [he] at h
    exact Option.noConfusion h
  | some e =>
    simp only [he] at h
    by_cases hg : (!cfg.requireVerifiedEmail || np.emailVerified) = true
    · rw [if_pos hg] at h
      exact List.mem_of_find?_eq_some h
    · rw [if_neg hg] at h
      exact Option.noConfusion h

theorem resolve_user_ownsPair (cfg : ProviderCfg) (store : List User)
    (np : NormalizedProfile) (now newId : Nat) :
    ownsPair cfg.tag np.providerId (findOrCreateUser cfg store np now newId).user
      = true := by
  unfold findOrCreateUser
  cases hfp : findByPair store cfg.tag np.providerId with
  | some u =>
    have hu : ownsPair cfg.tag np.providerId u = true := List.find?_some hfp
    have hu' : u.providers.any (matchesPair cfg.tag np.providerId) = true := hu
    dsimp only
    rw [if_pos hu]
    simp [ownsPair, any_refreshFirst, hu']
  | none =>
    cases hel : emailLookup cfg store np with
    | some u =>
      dsimp only
      simp [ownsPair, List.any_append, matchesPair_pushedIdentity]
    | none =>
      dsimp only
      simp [ownsPair, createdUser, matchesPair_pushedIdentity]

theorem findByPair_resolve (cfg : ProviderCfg) (store : List User)
    (np : NormalizedProfile) (now newId : Nat) :
    findByPair (findOrCreateUser cfg store np now newId).store cfg.tag np.providerId
      = some (findOrCreateUser cfg store np now newId).user := by
  unfold findOrCreateUser
  cases hfp : findByPair store cfg.tag np.providerId with
  | some u =>
    have hu : ownsPair cfg.tag np.providerId u = true := List.find?_some hfp
    have hu' : u.providers.any (matchesPair cfg.tag np.providerId) = true := hu
    dsimp only
    rw [if_pos hu]
    have hP : ownsPair cfg.tag np.providerId
        { u with providers := refreshFirst cfg np u.providers, updatedAt := now }
        = true := by
      simp [ownsPair, any_refreshFirst, hu']
    exact find?_saveUser_of_some _ hfp rfl hP
  | none =>
    cases hel : emailLookup cfg store np with
    | some u =>
      dsimp only
      have hP : ownsPair cfg.tag np.providerId
          { u with providers := u.providers ++ [pushedIdentity cfg np now]
                   updatedAt := now } = true := by
        simp [ownsPair, List.any_append, matchesPair_pushedIdentity]
      exact find?_saveUser_of_none _ hfp (mem_of_emailLookup hel) rfl hP
    | none =>
      dsimp only
      have hP : ownsPair cfg.tag np.providerId (createdUser cfg np now newId)
          = true := by
        simp [ownsPair, createdUser, matchesPair_pushedIdentity]
      exact find?_append_singleton _ hfp hP

theorem findOrCreateUser_of_found (cfg : ProviderCfg) (store : List User)
    (np : NormalizedProfile) (now newId : Nat) (u : User)
    (hfp : findByPair store cfg.tag np.providerId = some u)
    (hu : ownsPair cfg.tag np.providerId u = true) :
    findOrCreateUser cfg store np now newId =
      { user := { u with providers := refreshFirst cfg np u.providers
                         updatedAt := now }
        store := saveUser store
          { u with providers := refreshFirst cfg np u.providers, updatedAt := now }
        decision := Decision.login } := by
  unfold findOrCreateUser
  rw [hfp]
  dsimp only
  rw [if_pos hu]

/-! Theorems for the claims. -/

/-- Claim C5: resolving the same (provider, externalId) pair twice in
succession with unchanged profile data returns the same User (same
identifier) both times, and the second resolution does not append a second
Linked Identity — the length of the providers collection of the returned
User is unchanged by the second resolution. -/
theorem resolve_twice_same_user_no_duplicate (cfg : ProviderCfg)
    (store : List User) (np : NormalizedProfile)
    (now1 newId1 now2 newId2 : Nat) :
    (findOrCreateUser cfg (findOrCreateUser cfg store np now1 newId1).store
        np now2 newId2).user.id
      = (findOrCreateUser cfg store np now1 newId1).user.id ∧
    (findOrCreateUser cfg (findOrCreateUser cfg store np now1 newId1).store
        np now2 newId2).user.providers.length
      = (findOrCreateUser cfg store np now1 newId1).user.providers.length := by
  have h1 := findByPair_resolve cfg store np now1 newId1
  have h2 := resolve_user_ownsPair cfg store np now1 newId1
  have hstep := findOrCreateUser_of_found cfg
    (findOrCreateUser cfg store np now1 newId1).store np now2 newId2
    (findOrCreateUser cfg store np now1 newId1).user h1 h2
  constructor
  · rw [hstep]
  · rw [hstep]
    exact length_refreshFirst cfg np _

/-- Claim C8: a resolution performed while a User is authenticated never
switches the session to a different User: after either authorize variant
the session user id equals the one from before the operation, on the
success paths (refresh or link) and on every rejection path alike. -/
theorem authorize_preserves_session_user (cfg : ProviderCfg)
    (store : List User) (session : Option Nat) (np : NormalizedProfile)
    (now : Nat) :
    (authorizeStepConflictFirst cfg store session np now).session = session ∧
    (authorizeStepOwnFirst cfg store session np now).session = session := by
  cases session with
  | none => exact ⟨rfl, rfl⟩
  | some sid =>
    cases hu : findById store sid with
    | none =>
      constructor
      · unfold authorizeStepConflictFirst
        dsimp only
        rw [hu]
      · unfold authorizeStepOwnFirst
        dsimp only
        rw [hu]
    | some u =>
      have hid : u.id = sid := by
        have h := List.find?_some hu
        simpa using h
      constructor
      · unfold authorizeStepConflictFirst
        dsimp only
        rw [hu]
        dsimp only
        split
        · rfl
        · split
          · simp [hid]
          · simp [hid]
      · unfold authorizeStepOwnFirst
        dsimp only
        rw [hu]
        dsimp only
        split
        · simp [hid]
        · split
          · rfl
          · simp [hid]

/-- Claim C3: when a User is authenticated and the incoming (provider,
externalId) pair is already owned by a different User, both authorize
variants reject with the AlreadyLinkedConflict error (a thrown 400 in the
source) and leave the store — hence the authenticated user record — and
the session unchanged. The hypothesis `hown` (the current user does not
hold the pair) is what the storage-layer uniqueness constraint on
(provider, providerId) guarantees whenever the owner is a different
user. -/
theorem authorize_conflict_rejects_unchanged (cfg : ProviderCfg)
    (store : List User) (sid : Nat) (np : NormalizedProfile) (now : Nat)
    (u w : User) (hu : findById store sid = some u)
    (hw : findByPair store cfg.tag np.providerId = some w)
    (hdiff : w.id ≠ u.id)
    (hown : ownsPair cfg.tag np.providerId u = false) :
    authorizeStepConflictFirst cfg store (some sid) np now
      = { decision := AuthzDecision.conflict, store := store
          session := some sid } ∧
    authorizeStepOwnFirst cfg store (some sid) np now
      = { decision := AuthzDecision.conflict, store := store
          session := some sid } := by
  have hb : (w.id != u.id) = true := by simp [hdiff]
  constructor
  · simp [authorizeStepConflictFirst, hu, hw, hb]
  · simp [authorizeStepOwnFirst, hu, hw, hb, hown]

/-- current user of the witness scenario for the conflict rejection: owns a
github identity only. -/
def authzCurrentUser : User :=
  { id := 1, name := "Current", email := some ("cur@x.com")
    emailVerified := true
    providers := [{ provider := "github", providerId := "gh1"
                    displayName := "Current", email := some ("cur@x.com")
                    profilePhoto := none, accessToken := "t1"
                    refreshToken := none, linkedAt := 0 }]
    createdAt := 0, updatedAt := 0 }

/-- other user of the witness scenario: already owns the google pair. -/
def authzOtherUser : User :=
  { id := 2, name := "Other", email := some ("oth@x.com")
    emailVerified := true
    providers := [{ provider := "google", providerId := "g9"
                    displayName := "Other", email := some ("oth@x.com")
                    profilePhoto := none, accessToken := "t2"
                    refreshToken := none, linkedAt := 0 }]
    createdAt := 0, updatedAt := 0 }

/-- the incoming google identity of the witness scenario, already owned by
`authzOtherUser`. -/
def authzProfile : NormalizedProfile :=
  { providerId := "g9", provider := "google", displayName := "Current"
    email := some ("cur@x.com"), emailVerified := true, profilePhoto := none
    accessToken := "t3", refreshToken := none }

/-- witness for the conflict rejection at a concrete store. -/
theorem authorize_conflict_rejects_unchanged_witness :
    authorizeStepConflictFirst googleCfg [authzCurrentUser, authzOtherUser]
        (some 1) authzProfile 7
      = { decision := AuthzDecision.conflict
          store := [authzCurrentUser, authzOtherUser], session := some 1 } ∧
    authorizeStepOwnFirst googleCfg [authzCurrentUser, authzOtherUser]
        (some 1) authzProfile 7
      = { decision := AuthzDecision.conflict
          store := [authzCurrentUser, authzOtherUser], session := some 1 } :=
  authorize_conflict_rejects_unchanged googleCfg [authzCurrentUser, authzOtherUser]
    1 authzProfile 7 authzCurrentUser authzOtherUser
    (by decide) (by decide) (by decide) (by decide)

/-- existing user of the unverified-email counterexample: owns only a github
identity, primary email a@x.com. -/
def unverifiedCxUser : User :=
  { id := 1, name := "Existing", email := some ("a@x.com")
    emailVerified := true
    providers := [{ provider := "github", providerId := "gh1"
                    displayName := "Existing", email := some ("a@x.com")
                    profilePhoto := none, accessToken := "t0"
                    refreshToken := none, linkedAt := 0 }]
    createdAt := 0, updatedAt := 0 }

/-- incoming facebook identity with emailVerified = false and the email of
`unverifiedCxUser`; its pair has no owner. -/
def unverifiedCxProfile : NormalizedProfile :=
  { providerId := "fb9", provider := "facebook", displayName := "Eve"
    email := some ("a@x.com"), emailVerified := false, profilePhoto := none
    accessToken := "tf", refreshToken := none }

/-- Claim C1 counterexample: the facebook resolver, handed a normalized
identity with emailVerified = false whose (provider, externalId) pair has
no owner, attaches to the existing user found by primary-email lookup
instead of creating a new User. -/
theorem unverifiedEmail_facebook_attaches_counterexample :
    unverifiedCxProfile.emailVerified = false ∧
    findByPair [unverifiedCxUser] facebookCfg.tag unverifiedCxProfile.providerId
      = none ∧
    (findOrCreateUser facebookCfg [unverifiedCxUser] unverifiedCxProfile 1 2).decision
      = Decision.linkByEmail ∧
    (findOrCreateUser facebookCfg [unverifiedCxUser] unverifiedCxProfile 1 2).user.id
      = unverifiedCxUser.id := by
  decide

/-- Claim C1 (amended): for the resolvers whose merge guard requires a
verified email (google, github, linkedin: requireVerifiedEmail = true), an
anonymous resolution of an identity with emailVerified = false or a null
email, whose pair has no owner, always creates a new User; the facebook
resolver guarantees this only when the email is null — its guard tests
email presence alone (though its own normalizer always emits
emailVerified = true). -/
theorem anonUnverifiedOrMissingEmail_creates (cfg : ProviderCfg)
    (store : List User) (np : NormalizedProfile) (now newId : Nat)
    (hpair : findByPair store cfg.tag np.providerId = none)
    (hcase : (cfg.requireVerifiedEmail = true ∧
              (np.emailVerified = false ∨ np.email = none)) ∨ np.email = none) :
    (findOrCreateUser cfg store np now newId).decision = Decision.create := by
  have hel : emailLookup cfg store np = none := by
    unfold emailLookup
    rcases hcase with ⟨hreq, hv | hn⟩ | hn
    · cases he : np.email with
      | none => rfl
      | some e =>
        dsimp only
        rw [if_neg (by simp [hreq, hv])]
    · rw [hn]
    · rw [hn]
  unfold findOrCreateUser
  rw [hpair]
  dsimp only
  rw [hel]

/-- profile of the C1 witness: a google identity with an unverified email. -/
def unverifiedWitnessProfile : NormalizedProfile :=
  { providerId := "g1", provider := "google", displayName := "W"
    email := some ("w@x.com"), emailVerified := false, profilePhoto := none
    accessToken := "t", refreshToken := none }

/-- witness: on the empty store the google resolver creates a new User for
an identity with an unverified email. -/
theorem anonUnverifiedOrMissingEmail_creates_witness :
    (findOrCreateUser googleCfg [] unverifiedWitnessProfile 0 1).decision
      = Decision.create :=
  anonUnverifiedOrMissingEmail_creates googleCfg [] unverifiedWitnessProfile 0 1
    (by decide) (Or.inl ⟨by decide, Or.inl (by decide)⟩)

/-- Claim C2 (code defect): at a callback whose returned state differs from
the stored one, the google, github and linkedin custom providers still run
the token exchange, the profile fetch and the resolver, with no CSRF
rejection anywhere; only the facebook provider rejects before any provider
HTTP call. -/
theorem callback_state_mismatch_not_rejected :
    googleCallbackEvents (some ("abc")) (some ("xyz"))
      = [FlowEvent.tokenExchange, FlowEvent.profileFetch,
         FlowEvent.resolverInvoked] ∧
    FlowEvent.csrfReject ∉ googleCallbackEvents (some ("abc")) (some ("xyz")) ∧
    githubCallbackEvents (some ("abc")) (some ("xyz"))
      = [FlowEvent.tokenExchange, FlowEvent.profileFetch,
         FlowEvent.resolverInvoked] ∧
    linkedinCallbackEvents (some ("abc")) (some ("xyz"))
      = [FlowEvent.tokenExchange, FlowEvent.profileFetch,
         FlowEvent.resolverInvoked] ∧
    facebookCallbackEvents (some ("abc")) (some ("xyz"))
      = [FlowEvent.csrfReject] := by
  decide

/-- the sole linked identity of the unlink scenario. -/
def soloGoogleIdentity : LinkedIdentity :=
  { provider := "google", providerId := "g7", displayName := "Solo"
    email := some ("solo@x.com"), profilePhoto := none
    accessToken := "tk", refreshToken := none, linkedAt := 0 }

/-- user with exactly one linked identity (google) for the unlink claim. -/
def soloGoogleUser : User :=
  { id := 3, name := "Solo", email := some ("solo@x.com")
    emailVerified := true
    providers := [soloGoogleIdentity]
    createdAt := 0, updatedAt := 0 }

/-- Claim C4 counterexample: an authenticated unlink request by a user with
exactly one Linked Identity, naming a provider they do not hold, fails with
the 404 not-linked error, not with the LastIdentityViolation (400). -/
theorem unlink_single_identity_notfound_counterexample :
    soloGoogleUser.providers.length = 1 ∧
    (unlinkProvider true soloGoogleUser ("github")).1
      = UnlinkOutcome.providerNotLinked ∧
    (unlinkProvider true soloGoogleUser ("github")).1
      ≠ UnlinkOutcome.lastProvider := by
  decide

/-- Claim C4 (amended): for an authenticated User holding exactly one Linked
Identity, every unlink request leaves the stored providers collection
unchanged, and a request naming the provider of the sole identity fails
with the last-provider violation (400, Cannot unlink the last provider);
a request naming any other provider fails with a 404 instead, also without
mutation. -/
theorem unlink_last_identity_guard (u : User) (p : LinkedIdentity)
    (prov : String) (hone : u.providers = [p]) :
    (unlinkProvider true u prov).2 = u ∧
    (p.provider = prov → supportedProviders.contains prov = true →
      (unlinkProvider true u prov).1 = UnlinkOutcome.lastProvider) := by
  by_cases hs : supportedProviders.contains prov = true
  case neg =>
    have hs' : ¬ prov ∈ supportedProviders := by
      intro hmem
      exact hs (by simpa using hmem)
    refine ⟨by simp [unlinkProvider, hs'], ?_⟩
    intro _ hsup
    exact absurd hsup hs
  case pos =>
    have hs' : prov ∈ supportedProviders := by simpa using hs
    cases hm : p.provider == prov with
    | false =>
      refine ⟨by simp [unlinkProvider, hs', hone, List.findIdx?_cons, hm], ?_⟩
      intro hp _
      rw [hp] at hm
      simp at hm
    | true =>
      refine ⟨?_, fun _ _ => ?_⟩ <;>
        simp [unlinkProvider, hs', hone, List.findIdx?_cons, hm]

/-- witness: unlinking the sole google identity of `soloGoogleUser` hits the
last-provider violation and leaves the record unchanged. -/
theorem unlink_last_identity_guard_witness :
    (unlinkProvider true soloGoogleUser ("google")).2 = soloGoogleUser ∧
    (unlinkProvider true soloGoogleUser ("google")).1
      = UnlinkOutcome.lastProvider :=
  ⟨(unlink_last_identity_guard soloGoogleUser soloGoogleIdentity ("google") rfl).1,
   (unlink_last_identity_guard soloGoogleUser soloGoogleIdentity ("google") rfl).2
     rfl (by decide)⟩

/-- profile of the persistence-race scenario: no email, pair unowned. -/
def raceCxProfile : NormalizedProfile :=
  { providerId := "n1", provider := "google", displayName := "New"
    email := none, emailVerified := false, profilePhoto := none
    accessToken := "t", refreshToken := none }

/-- Claim C6 counterexample: when the create-save fails — as it does for the
loser of the uniqueness race — the resolver surfaces the generic 500 error;
it does not retry as a lookup returning LOGIN for the winning write. -/
theorem uniquenessRace_surfaced_counterexample :
    findOrCreateUserE googleCfg [] raceCxProfile 0 1 true
      = ResolveOutcomeE.err 500 ("Failed to find or create user") := by
  rfl

/-- Claim C6 (amended): a persistence failure of the create-save — the
uniqueness-race loser included — is caught and re-thrown as the generic 500
Failed-to-find-or-create-user error, with no retry and no second lookup;
when the save succeeds the resolver result is returned unchanged. -/
theorem createSaveFailure_surfaces_without_retry (cfg : ProviderCfg)
    (store : List User) (np : NormalizedProfile) (now newId : Nat)
    (hpair : findByPair store cfg.tag np.providerId = none)
    (hemail : emailLookup cfg store np = none) :
    findOrCreateUserE cfg store np now newId true
      = ResolveOutcomeE.err 500 ("Failed to find or create user") ∧
    findOrCreateUserE cfg store np now newId false
      = ResolveOutcomeE.ok (findOrCreateUser cfg store np now newId) := by
  constructor
  · unfold findOrCreateUserE
    rw [hpair]
    dsimp only
    rw [hemail]
    rfl
  · unfold findOrCreateUserE findOrCreateUser
    rw [hpair]
    dsimp only
    rw [hemail]
    rfl

/-- witness: the no-retry behaviour at a concrete empty store. -/
theorem createSaveFailure_surfaces_without_retry_witness :
    findOrCreateUserE googleCfg [] raceCxProfile 0 1 true
      = ResolveOutcomeE.err 500 ("Failed to find or create user") ∧
    findOrCreateUserE googleCfg [] raceCxProfile 0 1 false
      = ResolveOutcomeE.ok (findOrCreateUser googleCfg [] raceCxProfile 0 1) :=
  createSaveFailure_surfaces_without_retry googleCfg [] raceCxProfile 0 1
    (by decide) (by decide)

/-- google identity with no email, used against the placeholder claim. -/
def noEmailGoogleProfile : NormalizedProfile :=
  { providerId := "g42", provider := "google", displayName := "NoMail"
    email := none, emailVerified := false, profilePhoto := none
    accessToken := "t", refreshToken := none }

/-- Claim C7 counterexample: the google resolver of the custom framework,
resolving an identity with no email on an empty store, does not create a
new User with the user-g42@google.account placeholder — it builds the
document with the null email, the schema's required-email validation makes
the save fail, and the resolution surfaces the generic 500 error. -/
theorem placeholder_google_fails_counterexample :
    noEmailGoogleProfile.email = none ∧
    (createdUser googleCfg noEmailGoogleProfile 0 1).email = none ∧
    findOrCreateUserSchemaChecked googleCfg [] noEmailGoogleProfile 0 1
      = ResolveOutcomeE.err 500 ("Failed to find or create user") := by
  decide

/-- Claim C7 (amended): when a new User is created from an identity with a
null email, the facebook and linkedin resolvers synthesize the
user-externalId@provider.account placeholder and the create succeeds; the
google and github resolvers of the custom framework synthesize no
placeholder — the document they build carries the null email, fails the
userSchema required-email validation at save, and the resolution surfaces
the generic 500 error instead of creating a User. -/
theorem missing_email_created_user_email (cfg : ProviderCfg)
    (store : List User) (np : NormalizedProfile) (now newId : Nat)
    (hemail : np.email = none)
    (hpair : findByPair store cfg.tag np.providerId = none) :
    (cfg.placeholderEmail = true →
      findOrCreateUserSchemaChecked cfg store np now newId
        = ResolveOutcomeE.ok
            { user := createdUser cfg np now newId
              store := store ++ [createdUser cfg np now newId]
              decision := Decision.create } ∧
      (createdUser cfg np now newId).email
        = some ("user-" ++ np.providerId ++ "@" ++ cfg.tag ++ ".account")) ∧
    (cfg.placeholderEmail = false →
      findOrCreateUserSchemaChecked cfg store np now newId
        = ResolveOutcomeE.err 500 ("Failed to find or create user")) ∧
    facebookCfg.placeholderEmail = true ∧ linkedinCfg.placeholderEmail = true ∧
    googleCfg.placeholderEmail = false ∧ githubCfg.placeholderEmail = false := by
  have hel : emailLookup cfg store np = none := by
    unfold emailLookup
    rw [hemail]
  have hcreatedEmail : (createdUser cfg np now newId).email =
      (if cfg.placeholderEmail then
        some ("user-" ++ np.providerId ++ "@" ++ cfg.tag ++ ".account")
       else none) := by
    dsimp only [createdUser]
    cases hpl : cfg.placeholderEmail <;> simp [hpl, placeholderFor, hemail]
  refine ⟨?_, ?_, rfl, rfl, rfl, rfl⟩
  · intro hpl
    rw [hpl] at hcreatedEmail
    refine ⟨?_, by simpa using hcreatedEmail⟩
    unfold findOrCreateUserSchemaChecked
    rw [hpair]
    dsimp only
    rw [hel]
    dsimp only
    rw [if_pos (by simp [hcreatedEmail])]
  · intro hpl
    rw [hpl] at hcreatedEmail
    unfold findOrCreateUserSchemaChecked
    rw [hpair]
    dsimp only
    rw [hel]
    dsimp only
    rw [if_neg (by simp [hcreatedEmail])]

/-- facebook identity with no email for the placeholder witness. -/
def noEmailFacebookProfile : NormalizedProfile :=
  { providerId := "fb42", provider := "facebook", displayName := "NoMail"
    email := none, emailVerified := true, profilePhoto := none
    accessToken := "t", refreshToken := none }

/-- witness: the facebook resolver does synthesize the placeholder when the
email is null, and the create then passes the schema validation. -/
theorem missing_email_created_user_email_witness :
    (facebookCfg.placeholderEmail = true →
      findOrCreateUserSchemaChecked facebookCfg [] noEmailFacebookProfile 0 1
        = ResolveOutcomeE.ok
            { user := createdUser facebookCfg noEmailFacebookProfile 0 1
              store := [] ++ [createdUser facebookCfg noEmailFacebookProfile 0 1]
              decision := Decision.create } ∧
      (createdUser facebookCfg noEmailFacebookProfile 0 1).email
        = some ("user-" ++ noEmailFacebookProfile.providerId ++ "@"
            ++ facebookCfg.tag ++ ".account")) ∧
    (facebookCfg.placeholderEmail = false →
      findOrCreateUserSchemaChecked facebookCfg [] noEmailFacebookProfile 0 1
        = ResolveOutcomeE.err 500 ("Failed to find or create user")) ∧
    facebookCfg.placeholderEmail = true ∧ linkedinCfg.placeholderEmail = true ∧
    googleCfg.placeholderEmail = false ∧ githubCfg.placeholderEmail = false :=
  missing_email_created_user_email facebookCfg [] noEmailFacebookProfile 0 1
    rfl (by decide)

/-- Claim C9 counterexample: the facebook adapter normalizes a payload that
carries no verification assertion at all (the adapter fetches only the
fields id, name, email, picture) to emailVerified = true. -/
theorem facebook_emailVerified_constant_counterexample :
    (facebookNormalizeProfile
        { id := "f1", email := some ("a@x.com"), name := some ("Alice")
          picture_data_url := none }
        { access_token := "tok", refresh_token := none
          expires_in := none }).emailVerified = true := by
  rfl

/-- Claim C9 (amended): the google, github and linkedin custom adapters set
emailVerified from the email_verified claim of the payload (false when the
claim is absent) — true only when the provider asserts it; the facebook
custom adapter instead sets emailVerified to the constant true although its
payload carries no verification claim. -/
theorem normalize_emailVerified_policy :
    (∀ (g : GoogleRawProfile) (t : TokenSet),
      (googleNormalizeProfile g t).emailVerified = g.email_verified.getD false) ∧
    (∀ (g : GithubRawProfile) (t : TokenSet),
      (githubNormalizeProfile g t).emailVerified = g.email_verified.getD false) ∧
    (∀ (l : LinkedinRawProfile) (t : TokenSet),
      (linkedinNormalizeProfile l t).emailVerified
        = l.email_verified.getD false) ∧
    (∀ (f : FacebookRawProfile) (t : TokenSet),
      (facebookNormalizeProfile f t).emailVerified = true) :=
  ⟨fun _ _ => rfl, fun _ _ => rfl, fun _ _ => rfl, fun _ _ => rfl⟩

theorem forall₂_map_safeProviderView {l m : List LinkedIdentity}
    (h : List.Forall₂ sameNonSecret l m) :
    l.map safeProviderView = m.map safeProviderView := by
  induction h with
  | nil => rfl
  | cons hpq _ ih =>
    obtain ⟨h1, h2, h3, h4, h5⟩ := hpq
    simp only [List.map_cons, ih]
    simp [safeProviderView, h1, h2, h3, h4, h5]

/-- Claim C10: the current-user endpoint response is a function of the
non-secret fields only: two authenticated users whose records agree on
everything except the stored accessToken/refreshToken values receive
identical responses (which, by construction of SafeUser, contain no token
material). -/
theorem currentUser_response_token_free (u v : User)
    (h : tokensOnlyDiff u v) :
    currentUserRoute (some u) = currentUserRoute (some v) := by
  obtain ⟨h1, h2, h3, h4, h5, h6, h7⟩ := h
  unfold currentUserRoute safeUserView
  dsimp only
  rw [h1, h2, h3, h4, h5, h6, forall₂_map_safeProviderView h7]

/-- first user of the C10 witness pair. -/
def tokenUserA : User :=
  { id := 9, name := "Tok", email := some ("tok@x.com"), emailVerified := true
    providers := [{ provider := "google", providerId := "g1"
                    displayName := "Tok", email := some ("tok@x.com")
                    profilePhoto := none, accessToken := "secret-one"
                    refreshToken := some ("refresh-one"), linkedAt := 4 }]
    createdAt := 2, updatedAt := 3 }

/-- second user of the C10 witness pair: differs from `tokenUserA` only in
the stored token material. -/
def tokenUserB : User :=
  { id := 9, name := "Tok", email := some ("tok@x.com"), emailVerified := true
    providers := [{ provider := "google", providerId := "g1"
                    displayName := "Tok", email := some ("tok@x.com")
                    profilePhoto := none, accessToken := "secret-two"
                    refreshToken := none, linkedAt := 4 }]
    createdAt := 2, updatedAt := 3 }

/-- witness: the two token-differing users above get identical responses. -/
theorem currentUser_response_token_free_witness :
    tokenUserA ≠ tokenUserB ∧
    currentUserRoute (some tokenUserA) = currentUserRoute (some tokenUserB) :=
  ⟨by decide,
   currentUser_response_token_free tokenUserA tokenUserB
     ⟨rfl, rfl, rfl, rfl, rfl, rfl,
      List.Forall₂.cons ⟨rfl, rfl, rfl, rfl, rfl⟩ List.Forall₂.nil⟩⟩

end PassportLink
